import Mathlib

/-!
# Verification of the `ornament` wireframe renderer (src/ornament.c)

A shallow embedding of the program's data model and algorithms.

Conventions used throughout:

* C `float` values are modelled as elements of an arbitrary `LinearOrderedField K`
  (instantiated at `ℝ` in the theorems about the real program, and at `ℚ` for
  concrete evaluations); float rounding is not modelled, following the spec's
  idealized reading of the arithmetic.
* The transcendental library functions (`sqrtf`, `sinf`, `cosf`, `acosf`) and the
  constant `M_PI` are passed explicitly through a `MathFns K` record so that all
  definitions stay computable; theorems about the real program instantiate it
  with `Real.sqrt`, `Real.sin`, `Real.cos`, `Real.arccos`, `Real.pi`.
* `rand()`-based randomness (`frand01`, `frand_range`) is modelled by an abstract
  stream `rng : ℕ → K` of draws in `[0,1]` together with an explicit cursor, one
  draw per `rand()` call, consumed left to right.
* C strings are modelled as `List Char`, machine integers as `ℤ`/`ℕ`.
-/

namespace Ornament

variable {K : Type} [LinearOrderedField K]

/-- Bundles the math-library functions the C code calls (`sqrtf`, `sinf`,
`cosf`, `acosf`) plus the constant `M_PI`, so definitions stay computable. -/
structure MathFns (K : Type) where
  sqrt : K → K
  sin : K → K
  cos : K → K
  acos : K → K
  pi : K

/-- C `vec3` (src/ornament.c:55). -/
structure Vec3 (K : Type) where
  x : K
  y : K
  z : K
  deriving DecidableEq

/-- C `quat` (src/ornament.c:56). -/
structure Quat (K : Type) where
  x : K
  y : K
  z : K
  w : K
  deriving DecidableEq

/-- `v3` constructor (src/ornament.c:59). -/
def v3 (x y z : K) : Vec3 K := ⟨x, y, z⟩

/-- `v3_scale` (src/ornament.c:62). -/
def v3_scale (a : Vec3 K) (s : K) : Vec3 K := v3 (a.x*s) (a.y*s) (a.z*s)

/-- `v3_dot` (src/ornament.c:63). -/
def v3_dot (a b : Vec3 K) : K := a.x*b.x + a.y*b.y + a.z*b.z

/-- `v3_len` (src/ornament.c:65). -/
def v3_len (F : MathFns K) (a : Vec3 K) : K := F.sqrt (v3_dot a a)

/-- `v3_norm` (src/ornament.c:66): normalize, or zero vector when the length is
below `1e-8`. -/
def v3_norm (F : MathFns K) (a : Vec3 K) : Vec3 K :=
  let l := v3_len F a
  if l > 1/100000000 then v3_scale a (1/l) else v3 0 0 0

/-- `q_ident` (src/ornament.c:68). -/
def q_ident : Quat K := ⟨0, 0, 0, 1⟩

/-- `q_from_axis_angle` (src/ornament.c:69). -/
def q_from_axis_angle (F : MathFns K) (axis : Vec3 K) (rad : K) : Quat K :=
  let axis := v3_norm F axis
  let s := F.sin (rad * (1/2))
  ⟨axis.x*s, axis.y*s, axis.z*s, F.cos (rad * (1/2))⟩

/-- `q_mul` (src/ornament.c:70-77). -/
def q_mul (a b : Quat K) : Quat K :=
  ⟨a.w*b.x + a.x*b.w + a.y*b.z - a.z*b.y,
   a.w*b.y - a.x*b.z + a.y*b.w + a.z*b.x,
   a.w*b.z + a.x*b.y - a.y*b.x + a.z*b.w,
   a.w*b.w - a.x*b.x - a.y*b.y - a.z*b.z⟩

/-- `q_from_euler` (src/ornament.c:78-88), XYZ order (pitch=X, yaw=Y, roll=Z). -/
def q_from_euler (F : MathFns K) (pitch yaw roll : K) : Quat K :=
  let cx := F.cos (pitch * (1/2)); let sx := F.sin (pitch * (1/2))
  let cy := F.cos (yaw * (1/2));   let sy := F.sin (yaw * (1/2))
  let cz := F.cos (roll * (1/2));  let sz := F.sin (roll * (1/2))
  ⟨sx*cy*cz - cx*sy*sz,
   cx*sy*cz + sx*cy*sz,
   cx*cy*sz - sx*sy*cz,
   cx*cy*cz + sx*sy*sz⟩

/-- Squared Euclidean norm of a quaternion (helper for stating invariants). -/
def qnormSq (q : Quat K) : K := q.x*q.x + q.y*q.y + q.z*q.z + q.w*q.w

/-- Euclidean norm of a quaternion, as computed with the program's `sqrt`. -/
def qnormE (F : MathFns K) (q : Quat K) : K := F.sqrt (qnormSq q)

/-- `q_norm` (src/ornament.c:89): normalize, or the identity quaternion when
the norm is below `1e-8`. -/
def q_norm (F : MathFns K) (q : Quat K) : Quat K :=
  let l := F.sqrt (q.x*q.x + q.y*q.y + q.z*q.z + q.w*q.w)
  if l < 1/100000000 then q_ident
  else ⟨q.x*(1/l), q.y*(1/l), q.z*(1/l), q.w*(1/l)⟩

/-- Componentwise negation of a quaternion (the in-place `b = -b` of
`q_slerp`, src/ornament.c:93). -/
def q_neg (q : Quat K) : Quat K := ⟨-q.x, -q.y, -q.z, -q.w⟩

/-- `q_slerp` (src/ornament.c:90-102): normalize both inputs, take the shorter
arc, fall back to normalized lerp when the quaternions are nearly aligned
(`dot > 0.9995`), otherwise the trigonometric slerp formula. -/
def q_slerp (F : MathFns K) (a0 b0 : Quat K) (t : K) : Quat K :=
  let a := q_norm F a0
  let b1 := q_norm F b0
  let dot0 := a.x*b1.x + a.y*b1.y + a.z*b1.z + a.w*b1.w
  let b := if dot0 < 0 then q_neg b1 else b1
  let dot := if dot0 < 0 then -dot0 else dot0
  if dot > 9995/10000 then
    q_norm F ⟨a.x + t*(b.x - a.x), a.y + t*(b.y - a.y),
              a.z + t*(b.z - a.z), a.w + t*(b.w - a.w)⟩
  else
    let th := F.acos dot
    let s1 := F.sin ((1 - t) * th) / F.sin th
    let s2 := F.sin (t * th) / F.sin th
    ⟨a.x*s1 + b.x*s2, a.y*s1 + b.y*s2, a.z*s1 + b.z*s2, a.w*s1 + b.w*s2⟩

/-- Model of C `fmodf(x, 1.0f)`: `x` minus its truncation toward zero
(src/ornament.c uses it only at lines 511 and 505). -/
def fmodf1 [FloorRing K] (x : K) : K :=
  x - (if 0 ≤ x then ((⌊x⌋ : ℤ) : K) else ((⌈x⌉ : ℤ) : K))

/-- `hsv2rgb` (src/ornament.c:115-123).  `ii = (int)floorf(h*6) % 6` uses the C
`%`, i.e. the remainder truncated toward zero; the `switch`'s `default` case
covers `ii = 5` as well as every other residue. -/
def hsv2rgb [FloorRing K] (h s v : K) : Vec3 K :=
  let i : ℤ := ⌊h * 6⌋
  let f := h * 6 - ((i : ℤ) : K)
  let p := v * (1 - s); let q := v * (1 - f * s); let t := v * (1 - (1 - f) * s)
  let ii : ℤ := Int.tmod i 6
  if ii = 0 then v3 v t p
  else if ii = 1 then v3 q v p
  else if ii = 2 then v3 p v t
  else if ii = 3 then v3 p q v
  else if ii = 4 then v3 t p v
  else v3 v p q

/-- `ColorKind` (src/ornament.c:126). -/
inductive ColorKind where
  | green | yellow | red | blue | cyan | pink | orange | purple | random
  deriving DecidableEq

/-- `neon_palette` (src/ornament.c:128-140); the `default` case (RANDOM) is
white. -/
def neon_palette (c : ColorKind) : Vec3 K :=
  match c with
  | .green  => v3 (1/10) 1 (4/10)
  | .yellow => v3 1 (95/100) (2/10)
  | .red    => v3 1 (15/100) (15/100)
  | .blue   => v3 (2/10) (6/10) 1
  | .cyan   => v3 (2/10) 1 1
  | .pink   => v3 1 (3/10) (8/10)
  | .orange => v3 1 (55/100) (15/100)
  | .purple => v3 (75/100) (3/10) 1
  | .random => v3 1 1 1

/-- `ShapeKind` (src/ornament.c:143). -/
inductive ShapeKind where
  | cube | sphere | pyramid | torus | oct
  deriving DecidableEq

/-- `WireGeom` (src/ornament.c:146): vertex positions plus edge index pairs.
The C struct's `vcount`/`lcount` are `verts.length`/`lines.length`. -/
structure WireGeom (K : Type) where
  verts : List (Vec3 K)
  lines : List (ℕ × ℕ)

/-- `make_cube` (src/ornament.c:148-158). -/
def make_cube : WireGeom K where
  verts := [v3 (-(1/2)) (-(1/2)) (-(1/2)), v3 (1/2) (-(1/2)) (-(1/2)),
            v3 (1/2) (1/2) (-(1/2)), v3 (-(1/2)) (1/2) (-(1/2)),
            v3 (-(1/2)) (-(1/2)) (1/2), v3 (1/2) (-(1/2)) (1/2),
            v3 (1/2) (1/2) (1/2), v3 (-(1/2)) (1/2) (1/2)]
  lines := [(0,1),(1,2),(2,3),(3,0), (4,5),(5,6),(6,7),(7,4), (0,4),(1,5),(2,6),(3,7)]

/-- `make_pyramid` (src/ornament.c:160-165). -/
def make_pyramid : WireGeom K where
  verts := [v3 (-(1/2)) 0 (-(1/2)), v3 (1/2) 0 (-(1/2)), v3 (1/2) 0 (1/2),
            v3 (-(1/2)) 0 (1/2), v3 0 (8/10) 0]
  lines := [(0,1),(1,2),(2,3),(3,0), (0,4),(1,4),(2,4),(3,4)]

/-- `make_octahedron` (src/ornament.c:167-172). -/
def make_octahedron : WireGeom K where
  verts := [v3 0 1 0, v3 1 0 0, v3 0 0 1, v3 (-1) 0 0, v3 0 0 (-1), v3 0 (-1) 0]
  lines := [(0,1),(0,2),(0,3),(0,4), (1,2),(2,3),(3,4),(4,1), (5,1),(5,2),(5,3),(5,4)]

/-- `make_sphere` (src/ornament.c:174-222).  Three phases fill the vertex
array in order, so the running vertex index `vi` has these closed forms:
latitude ring `i` (for `i = 1, …, lat-1`) starts at `(i-1)*lon`; longitude
half-circle `j` starts at `(lat-1)*lon + j*(lat*2)`; extra ring `rg` starts at
`(lat-1)*lon + lon*(lat*2) + rg*(lon*2)`. -/
def make_sphere (F : MathFns K) (lat lon : ℕ) : WireGeom K where
  verts :=
    -- latitude rings (excluding poles), src/ornament.c:181-192
    ((List.range' 1 (lat - 1)).flatMap fun i =>
      let a := F.pi * ((i : K) / (lat : K))
      let y := F.cos a; let r := F.sin a
      (List.range lon).map fun j =>
        let t := 2 * F.pi * ((j : K) / (lon : K))
        v3 (r * F.cos t) y (r * F.sin t)) ++
    -- longitude rings, src/ornament.c:194-203
    ((List.range lon).flatMap fun j =>
      let t := 2 * F.pi * ((j : K) / (lon : K))
      (List.range (lat * 2)).map fun k =>
        let u := F.pi * ((k : K) / ((lat * 2 - 1 : ℕ) : K))
        v3 (F.sin u * F.cos t) (F.cos u) (F.sin u * F.sin t)) ++
    -- extra equatorial + offset rings (3), src/ornament.c:205-219
    ((List.range 3).flatMap fun rg =>
      let tilt : K := if rg = 0 then 0 else if rg = 1 then 35/100 else -(1/2)
      (List.range (lon * 2)).map fun j =>
        let t := 2 * F.pi * ((j : K) / ((lon * 2 : ℕ) : K))
        let x := F.cos t; let z := F.sin t; let y : K := 0
        let cy := F.cos tilt; let sy := F.sin tilt
        v3 x (y * cy - z * sy) (y * sy + z * cy))
  lines :=
    ((List.range' 1 (lat - 1)).flatMap fun i =>
      let first := (i - 1) * lon
      ((List.range lon).flatMap fun j =>
        if j > 0 then [(first + j - 1, first + j)] else []) ++
      [(first + lon - 1, first)]) ++
    ((List.range lon).flatMap fun j =>
      let base := (lat - 1) * lon + j * (lat * 2)
      (List.range (lat * 2)).flatMap fun k =>
        if k > 0 then [(base + k - 1, base + k)] else []) ++
    ((List.range 3).flatMap fun rg =>
      let first := (lat - 1) * lon + lon * (lat * 2) + rg * (lon * 2)
      ((List.range (lon * 2)).flatMap fun j =>
        if j > 0 then [(first + j - 1, first + j)] else []) ++
      [(first + lon * 2 - 1, first)])

/-- `make_torus` (src/ornament.c:224-256).  Segment counts are clamped at 128;
the grid index table satisfies `idx[i][j] = i*minorSeg + j` because the
double loop fills vertices row-major; after generation all vertices are
rescaled so the farthest one lies at radius `1/2`. -/
def make_torus (F : MathFns K) (majorSeg0 minorSeg0 : ℕ) (R r : K) : WireGeom K :=
  let majorSeg := if majorSeg0 > 128 then 128 else majorSeg0
  let minorSeg := if minorSeg0 > 128 then 128 else minorSeg0
  let verts0 : List (Vec3 K) :=
    (List.range majorSeg).flatMap fun i =>
      let a := 2 * F.pi * (i : K) / (majorSeg : K)
      let ca := F.cos a; let sa := F.sin a
      (List.range minorSeg).map fun j =>
        let b := 2 * F.pi * (j : K) / (minorSeg : K)
        let cb := F.cos b; let sb := F.sin b
        let x := (R + r * cb) * ca
        let y := (R + r * cb) * sa
        let z := r * sb
        v3 x z y
  let lines :=
    (List.range majorSeg).flatMap fun i =>
      (List.range minorSeg).flatMap fun j =>
        let i2 := (i + 1) % majorSeg; let j2 := (j + 1) % minorSeg
        let a := i * minorSeg + j
        let b := i2 * minorSeg + j
        let c := i * minorSeg + j2
        [(a, b), (a, c)]
  -- normalize size, src/ornament.c:253-254
  let maxr := verts0.foldl (fun m p => if v3_len F p > m then v3_len F p else m) 0
  let s := (1/2) / maxr
  { verts := verts0.map (fun p => v3_scale p s), lines := lines }

/-- `Anchor` (src/ornament.c:284): nine named positions, in declaration order
TL, TC, TR, CL, C, CR, BL, BC, BR. -/
inductive Anchor where
  | tl | tc | tr | cl | c | cr | bl | bc | br
  deriving DecidableEq

/-- `ShapeConfig` (src/ornament.c:287-292); `screen` is a C `int` (from `atoi`). -/
structure ShapeConfig where
  shape : ShapeKind
  color : ColorKind
  pos : Anchor
  screen : ℤ
  deriving DecidableEq

/-- `ShapeRuntime` (src/ornament.c:294-307). -/
structure ShapeRuntime (K : Type) where
  shape : ShapeKind
  color : ColorKind
  hue : K
  hueSpeed : K
  orient : Quat K
  target : Quat K
  spinY : K
  spinX : K
  reorientTimer : K
  reorientDur : K
  reorientT : K
  worldPos : Vec3 K
  geom : WireGeom K

/-- `frand_range` (src/ornament.c:51): `a + (b-a)*frand01()`, with `frand01`
modelled as the next value of the abstract stream `rng`. -/
def frand_range (rng : ℕ → K) (k : ℕ) (a b : K) : K := a + (b - a) * rng k

/-- `update_shape` (src/ornament.c:509-528).  Takes the random stream and the
current cursor, returns the updated record together with the new cursor.
Draws are consumed in source order: three for the fresh target when a
reorientation starts (pitch, yaw, roll), then one for the new
`reorientTimer` on the tick the reorientation completes. -/
def update_shape [FloorRing K] (F : MathFns K) (rng : ℕ → K) (k : ℕ)
    (s : ShapeRuntime K) (dt : K) : ShapeRuntime K × ℕ :=
  -- update hue base (line 511)
  let s := { s with hue := fmodf1 (s.hue + s.hueSpeed * dt) }
  -- reorientation timing (line 513)
  let s := { s with reorientTimer := s.reorientTimer - dt }
  let (s, spinScale, k) :=
    if s.reorientTimer ≤ 0 ∨ 0 < s.reorientT then
      -- start new target if just entering (lines 516-518)
      let (s, k) :=
        if s.reorientT = 0 then
          let tgt := q_from_euler F (frand_range rng k (-(3/2)) (3/2))
                       (frand_range rng (k+1) (-(3/2)) (3/2))
                       (frand_range rng (k+2) (-(3/2)) (3/2))
          ({ s with target := tgt }, k + 3)
        else (s, k)
      let s := { s with reorientT := s.reorientT + dt / s.reorientDur }
      if 1 ≤ s.reorientT then
        -- snap (line 520)
        ({ s with orient := s.target, reorientT := 0,
                  reorientTimer := frand_range rng k 4 8 }, (1 : K), k + 1)
      else
        -- slerp toward target, spin damped (line 521)
        ({ s with orient := q_slerp F s.orient s.target s.reorientT }, (1/2 : K), k)
    else (s, (1 : K), k)
  -- continuous spin (lines 524-527)
  let dYaw := s.spinY * spinScale * dt * F.pi / 180
  let dPitch := s.spinX * spinScale * dt * F.pi / 180
  let dq := q_mul (q_from_axis_angle F (v3 0 1 0) dYaw) (q_from_axis_angle F (v3 1 0 0) dPitch)
  ({ s with orient := q_mul dq s.orient }, k)

/-- Runs `update_shape` over a list of frame times, threading the random
cursor, exactly as the render loop calls it once per frame
(src/ornament.c:596). -/
def run_updates [FloorRing K] (F : MathFns K) (rng : ℕ → K) :
    ℕ → ShapeRuntime K → List K → ShapeRuntime K × ℕ
  | k, s, [] => (s, k)
  | k, s, dt :: rest =>
    let p := update_shape F rng k s dt
    run_updates F rng p.2 p.1 rest

/-- The branch condition of the reorientation block (src/ornament.c:515),
evaluated after the timer decrement: `reorientTimer - dt <= 0 || reorientT > 0`. -/
def reorientCond (s : ShapeRuntime K) (dt : K) : Prop :=
  s.reorientTimer - dt ≤ 0 ∨ 0 < s.reorientT

instance (s : ShapeRuntime K) (dt : K) : Decidable (reorientCond s dt) := by
  unfold reorientCond; infer_instance

/-- The completion test of the reorientation block (src/ornament.c:520):
the advanced progress `reorientT + dt/reorientDur` has reached 1. -/
def snapCond (s : ShapeRuntime K) (dt : K) : Prop :=
  1 ≤ s.reorientT + dt / s.reorientDur

instance (s : ShapeRuntime K) (dt : K) : Decidable (snapCond s dt) := by
  unfold snapCond; infer_instance

/-- The mutable fields of `ShapeRuntime` (everything except `shape`, `color`
and `geom`). -/
inductive RtField where
  | hue | hueSpeed | orient | target | spinY | spinX
  | reorientTimer | reorientDur | reorientT | worldPos
  deriving DecidableEq

/-- Instrumentation of `update_shape` (src/ornament.c:509-528): how many times
each field of the record is assigned during one call, following the same
control flow.  Assignments counted: `hue` (line 511), `reorientTimer -= dt`
(line 513), `target` on entry (line 517), `reorientT +=` (line 519), on the
snap tick `orient`, `reorientT`, `reorientTimer` (line 520), otherwise
`orient` (line 521), and the unconditional `orient` spin write (line 527). -/
def update_writes (s : ShapeRuntime K) (dt : K) : RtField → ℕ := fun f =>
  (if f = .hue then 1 else 0) +
  (if f = .reorientTimer then 1 else 0) +
  (if s.reorientTimer - dt ≤ 0 ∨ 0 < s.reorientT then
    (if s.reorientT = 0 ∧ f = .target then 1 else 0) +
    (if f = .reorientT then 1 else 0) +
    (if 1 ≤ s.reorientT + dt / s.reorientDur then
      (if f = .orient then 1 else 0) + (if f = .reorientT then 1 else 0) +
      (if f = .reorientTimer then 1 else 0)
     else (if f = .orient then 1 else 0))
   else 0) +
  (if f = .orient then 1 else 0)

/-- `color_for` (src/ornament.c:504-507): palette lookup, except that RANDOM
computes `hsv2rgb(fmodf(hue + t*hueSpeed, 1), 1, 1)` from the stored hue
*and* the wall-clock time `t`. -/
def color_for [FloorRing K] (s : ShapeRuntime K) (t : K) : Vec3 K :=
  if s.color = .random then hsv2rgb (fmodf1 (s.hue + t * s.hueSpeed)) 1 1
  else neon_palette s.color

/-- `anchor_to_ndc` (src/ornament.c:364-371). -/
def anchor_to_ndc : Anchor → Vec3 K
  | .tl => v3 (-1) 1 0
  | .tc => v3 0 1 0
  | .tr => v3 1 1 0
  | .cl => v3 (-1) 0 0
  | .c  => v3 0 0 0
  | .cr => v3 1 0 0
  | .bl => v3 (-1) (-1) 0
  | .bc => v3 0 (-1) 0
  | .br => v3 1 (-1) 0

/-- `anchor_margin` (src/ornament.c:372-374): four sequential in-place `if`s,
each testing the current value. -/
def anchor_margin (a : Vec3 K) (m : K) : Vec3 K :=
  let r := a
  let r := if r.x < 0 then { r with x := r.x + m } else r
  let r := if 0 < r.x then { r with x := r.x - m } else r
  let r := if 0 < r.y then { r with y := r.y - m } else r
  let r := if r.y < 0 then { r with y := r.y + m } else r
  r

/-- The monitor-index clamp of `main` (src/ornament.c:454):
`if(mon<0) mon=0; if(mon>=monCount) mon=monCount-1;`. -/
def clamp_mon (sc : ℤ) (monCount : ℕ) : ℕ :=
  let mon := sc
  let mon := if mon < 0 then 0 else mon
  let mon := if (monCount : ℤ) ≤ mon then (monCount : ℤ) - 1 else mon
  mon.toNat

/-- The placement computation of `main` for one shape (src/ornament.c:456-459),
given the occurrence count `qn` read from `quadrantCount`:
margin-adjusted anchor, then `pos.x += (anc.x>=0? -off: off)` and
`pos.y += (anc.y>=0? -off: off)` with `off = 0.05*qn`. -/
def place_shape (pos0 : Anchor) (qn : ℕ) : Vec3 K :=
  let anc := anchor_to_ndc pos0
  let pos := anchor_margin anc (12/100)
  let off := (5/100) * (qn : K)
  let pos := { pos with x := pos.x + (if 0 ≤ anc.x then -off else off) }
  { pos with y := pos.y + (if 0 ≤ anc.y then -off else off) }

/-- The placement loop of `main` (src/ornament.c:450-459).  The
`quadrantCount[16][POS_COUNT]` table (zero-initialized, indexed by the
clamped monitor index and the anchor, post-incremented at each use) is
modelled as a function `ℕ → Anchor → ℕ`. -/
def place_loop (monCount : ℕ) : List ShapeConfig → (ℕ → Anchor → ℕ) → List (Vec3 K)
  | [], _ => []
  | sc :: rest, cnt =>
    let mon := clamp_mon sc.screen monCount
    let qn := cnt mon sc.pos
    place_shape sc.pos qn ::
      place_loop monCount rest
        (fun m a => if m = mon ∧ a = sc.pos then cnt m a + 1 else cnt m a)

/-- World positions assigned to the configured shapes, in configuration order
(src/ornament.c:452-479, the `R.worldPos=pos` field). -/
def place_positions (monCount : ℕ) (cfgs : List ShapeConfig) : List (Vec3 K) :=
  place_loop monCount cfgs (fun _ _ => 0)

/-- Modelled from the spec's words, for comparison with `place_shape` (the
definition taken from the source): the overlap offset of magnitude
`0.05*qn` per axis uses "the same sign convention as the margin pull",
i.e. coordinates that are zero in the base anchor are unaffected. -/
def place_shape_spec (pos0 : Anchor) (qn : ℕ) : Vec3 K :=
  let anc := anchor_to_ndc pos0
  let pos := anchor_margin anc (12/100)
  let off := (5/100) * (qn : K)
  let pos := { pos with x := pos.x + (if anc.x < 0 then off else if 0 < anc.x then -off else 0) }
  { pos with y := pos.y + (if anc.y < 0 then off else if 0 < anc.y then -off else 0) }

/-- The per-(monitor, anchor) predicate used to describe the occurrence
counter: configuration `c2` hits the same `quadrantCount` cell as `c`. -/
def same_cell (monCount : ℕ) (c c2 : ShapeConfig) : Bool :=
  decide (clamp_mon c2.screen monCount = clamp_mon c.screen monCount ∧ c2.pos = c.pos)

/-- `trim` (src/ornament.c:323): drop leading spaces/tabs/CRs, then trailing
spaces/tabs/CRs/newlines. -/
def trim (s : List Char) : List Char :=
  (((s.dropWhile fun ch => ch == ' ' || ch == '\t' || ch == '\r').reverse.dropWhile
    fun ch => ch == ' ' || ch == '\t' || ch == '\r' || ch == '\n').reverse)

/-- The per-character uppercasing of `ieq` (src/ornament.c:324):
`if(c>='a'&&c<='z') c -= 'a'-'A'`. -/
def upChar (c : Char) : Char :=
  if 'a' ≤ c ∧ c ≤ 'z' then Char.ofNat (c.toNat - 32) else c

/-- `ieq` (src/ornament.c:324): case-insensitive equality of C strings
(modelled on NUL-free character lists). -/
def ieq (a b : List Char) : Bool := a.map upChar == b.map upChar

/-- `SHAPE_NAMES` (src/ornament.c:144) with the enum value each index denotes. -/
def SHAPE_NAMES : List (List Char × ShapeKind) :=
  [("CUBE".toList, .cube), ("SPHERE".toList, .sphere), ("PYRAMID".toList, .pyramid),
   ("TORUS".toList, .torus), ("OCTAHEDRON".toList, .oct)]

/-- `COLOR_NAMES` (src/ornament.c:127) with the enum value each index denotes. -/
def COLOR_NAMES : List (List Char × ColorKind) :=
  [("GREEN".toList, .green), ("YELLOW".toList, .yellow), ("RED".toList, .red),
   ("BLUE".toList, .blue), ("CYAN".toList, .cyan), ("PINK".toList, .pink),
   ("ORANGE".toList, .orange), ("PURPLE".toList, .purple), ("RANDOM".toList, .random)]

/-- `POS_NAMES` (src/ornament.c:285) with the enum value each index denotes. -/
def POS_NAMES : List (List Char × Anchor) :=
  [("TOP-LEFT".toList, .tl), ("TOP-CENTER".toList, .tc), ("TOP-RIGHT".toList, .tr),
   ("CENTER-LEFT".toList, .cl), ("CENTER".toList, .c), ("CENTER-RIGHT".toList, .cr),
   ("BOTTOM-LEFT".toList, .bl), ("BOTTOM-CENTER".toList, .bc), ("BOTTOM-RIGHT".toList, .br)]

/-- `parse_shape` (src/ornament.c:327): first case-insensitive name match;
`none` models the C return value `-1`. -/
def parse_shape (s : List Char) : Option ShapeKind :=
  (SHAPE_NAMES.find? fun p => ieq s p.1).map fun p => p.2

/-- `parse_color` (src/ornament.c:326). -/
def parse_color (s : List Char) : Option ColorKind :=
  (COLOR_NAMES.find? fun p => ieq s p.1).map fun p => p.2

/-- `parse_pos` (src/ornament.c:328). -/
def parse_pos (s : List Char) : Option Anchor :=
  (POS_NAMES.find? fun p => ieq s p.1).map fun p => p.2

/-- The digit-accumulation loop of `atoi`. -/
def atoi_digits : ℤ → List Char → ℤ
  | acc, [] => acc
  | acc, ch :: rest =>
    if ch.isDigit then atoi_digits (acc * 10 + ((ch.toNat - 48 : ℕ) : ℤ)) rest else acc

/-- C `atoi` (used at src/ornament.c:351): skip whitespace, optional sign,
then digits; yields 0 when no digits are present.  Overflow is not
modelled (the result is an unbounded integer). -/
def atoi (s : List Char) : ℤ :=
  let s := s.dropWhile fun ch =>
    ch == ' ' || ch == '\t' || ch == '\n' || ch == Char.ofNat 11 || ch == Char.ofNat 12 || ch == '\r'
  match s with
  | '-' :: rest => - atoi_digits 0 rest
  | '+' :: rest => atoi_digits 0 rest
  | _ => atoi_digits 0 s

/-- `strchr` (src/ornament.c:339,342) as an index search. -/
def strchr_idx (s : List Char) (c : Char) : Option ℕ :=
  s.findIdx? fun x => x == c

/-- Split a character list at every comma, keeping empty pieces. -/
def split_commas : List Char → List (List Char)
  | [] => [[]]
  | ',' :: rest => [] :: split_commas rest
  | ch :: rest =>
    match split_commas rest with
    | [] => [[ch]]
    | t :: ts => (ch :: t) :: ts

/-- The quote-stripping of `load_ini` (src/ornament.c:348-350): when the first
and last characters are double quotes, remove both. -/
def unquote (s : List Char) : List Char :=
  if s.head? = some '"' ∧ s.getLast? = some '"' then s.dropLast.drop 1 else s

/-- One iteration of the `load_ini` line loop (src/ornament.c:335-355):
`some cfg` when the line yields a record, `none` when it is blank, a
comment, or malformed (skipped with a warning in C).  `strtok(inside,",")`
returns the maximal nonempty pieces between commas, so the three fields
are the first three nonempty pieces; `lhs` is capped at 63 characters and
`inside` at 255, as in C. -/
def parse_line (line : List Char) : Option ShapeConfig :=
  let p := trim line
  if p = [] then none
  else if p.head? = some '#' then none
  else
    match strchr_idx p '=' with
    | none => none
    | some eqIdx =>
      let lhs := (p.take eqIdx).take 63
      let tailFromEq := p.drop eqIdx
      match strchr_idx tailFromEq '[', strchr_idx tailFromEq ']' with
      | some lb, some rb =>
        if rb < lb then none
        else
          let inside := ((tailFromEq.drop (lb + 1)).take (rb - lb - 1)).take 255
          match (split_commas inside).filter (fun t => t ≠ []) with
          | a :: b :: c :: _ =>
            let a := unquote (trim a)
            let b := unquote (trim b)
            let c := unquote (trim c)
            match parse_shape lhs, parse_color a, parse_pos b with
            | some sh, some co, some po => some ⟨sh, co, po, atoi c⟩
            | _, _, _ => none
          | _ => none
      | _, _ => none

/-- The fallback record `{SH_CUBE, COL_GREEN, POS_C, 0}`
(src/ornament.c:333,357). -/
def default_config : ShapeConfig := ⟨.cube, .green, .c, 0⟩

/-- `load_ini` (src/ornament.c:330-359).  `none` models a file that cannot be
opened; otherwise the argument is the list of lines `fgets` yields. -/
def load_ini : Option (List (List Char)) → List ShapeConfig
  | none => [default_config]
  | some lines =>
    let L := lines.filterMap parse_line
    if L = [] then [default_config] else L

/-- The `anyOpen` scan at the top of each frame (src/ornament.c:589-590):
`flags` lists the per-surface `glfwWindowShouldClose` values. -/
def anyOpen (flags : List Bool) : Bool := flags.any fun b => !b

/-- Whether the body of the `while(1)` loop of `app_loop`
(src/ornament.c:587-616) still executes on frame `n`, given the
close-flag readings `flagsAt m` observed at the top of frame `m`:
iteration `n` runs iff every top-of-frame check up to and including
frame `n` found at least one surface still open. -/
def loop_runs (flagsAt : ℕ → List Bool) : ℕ → Bool
  | 0 => anyOpen (flagsAt 0)
  | n + 1 => loop_runs flagsAt n && anyOpen (flagsAt (n + 1))

/-- The well-formedness check of the claim on generated geometry: a positive
edge count, and every edge endpoint index below the vertex count. -/
def geom_ok (g : WireGeom K) : Bool :=
  decide (0 < g.lines.length) &&
  g.lines.all fun e => decide (e.1 < g.verts.length ∧ e.2 < g.verts.length)

/-- A dummy `MathFns ℚ` used to evaluate field-independent facts concretely. -/
def qFns : MathFns ℚ := ⟨id, id, id, id, 0⟩

/-- A concrete runtime record over `ℚ` used as input of counterexamples:
mid-reorientation (`reorientT = 3/4`), `reorientDur = 2`. -/
def sampleState : ShapeRuntime ℚ where
  shape := .cube
  color := .green
  hue := 0
  hueSpeed := 1/2
  orient := q_ident
  target := q_ident
  spinY := 200
  spinX := 20
  reorientTimer := 1
  reorientDur := 2
  reorientT := 3/4
  worldPos := v3 0 0 0
  geom := ⟨[], []⟩

/-- Claim C1 as stated: on every snap tick the update resets the progress,
redraws `reorientTimer` as a fresh uniform draw from [4,8] and redraws
`reorientDur` as a fresh uniform draw from [1.5,2.5] (each "fresh draw"
being some value of the random stream mapped by `frand_range`). -/
def claimC1_prop : Prop :=
  ∀ (s : ShapeRuntime ℚ) (rng : ℕ → ℚ) (k : ℕ) (dt : ℚ),
    (∀ j, 0 ≤ rng j ∧ rng j ≤ 1) →
    reorientCond s dt → snapCond s dt →
    (update_shape qFns rng k s dt).1.reorientT = 0 ∧
    (∃ j, (update_shape qFns rng k s dt).1.reorientTimer = frand_range rng j 4 8) ∧
    (∃ j, (update_shape qFns rng k s dt).1.reorientDur = frand_range rng j (3/2) (5/2))

/-- Claim C2 as stated: every mutable field of the record is written exactly
once per `update_shape` call. -/
def claimC2_prop : Prop :=
  ∀ (s : ShapeRuntime ℚ) (dt : ℚ) (f : RtField), update_writes s dt f = 1

/-- Claim C3 as stated: the RANDOM draw color is a function of the stored hue
alone (`hsv2rgb(hue, 1, 1)`), independent of the wall-clock time `t`. -/
def claimC3_prop : Prop :=
  ∀ (s : ShapeRuntime ℚ) (t : ℚ), s.color = .random → color_for s t = hsv2rgb s.hue 1 1

/-- Claim C6 as stated: the Nth shape sharing a (monitor, anchor) cell gets
the margin-adjusted anchor position plus the spec-convention interior
offset (`place_shape_spec`). -/
def claimC6_prop : Prop :=
  ∀ (monCount : ℕ) (cfgs : List ShapeConfig) (i : ℕ),
    (place_positions (K := ℚ) monCount cfgs)[i]? =
      (cfgs[i]?).map fun c =>
        place_shape_spec c.pos ((cfgs.take i).countP (same_cell monCount c))

set_option maxRecDepth 1000000

set_option maxHeartbeats 2000000

lemma cube_lines_indep (K : Type) [LinearOrderedField K] :
    (make_cube (K := K)).lines = (make_cube (K := ℚ)).lines := rfl

lemma cube_vcount (K : Type) [LinearOrderedField K] :
    (make_cube (K := K)).verts.length = 8 := rfl

lemma pyramid_lines_indep (K : Type) [LinearOrderedField K] :
    (make_pyramid (K := K)).lines = (make_pyramid (K := ℚ)).lines := rfl

lemma pyramid_vcount (K : Type) [LinearOrderedField K] :
    (make_pyramid (K := K)).verts.length = 5 := rfl

lemma octahedron_lines_indep (K : Type) [LinearOrderedField K] :
    (make_octahedron (K := K)).lines = (make_octahedron (K := ℚ)).lines := rfl

lemma octahedron_vcount (K : Type) [LinearOrderedField K] :
    (make_octahedron (K := K)).verts.length = 6 := rfl

/-- The sphere's edge list at the startup parameters does not depend on the
scalar field or the trig interpretation. -/
lemma sphere_lines_indep (K : Type) [LinearOrderedField K] (F : MathFns K) :
    (make_sphere F 10 16).lines = (make_sphere qFns 10 16).lines := rfl

/-- Sphere 10×16 vertex count: 9 latitude rings of 16, 16 longitude
half-circles of 20, 3 extra rings of 32. -/
lemma sphere_vcount (K : Type) [LinearOrderedField K] (F : MathFns K) :
    (make_sphere F 10 16).verts.length = 560 := rfl

/-- The torus's edge list at the startup parameters does not depend on the
scalar field or the trig interpretation. -/
lemma torus_lines_indep (K : Type) [LinearOrderedField K] (F : MathFns K) :
    (make_torus F 32 12 1 (35/100)).lines = (make_torus qFns 32 12 1 (35/100)).lines := rfl

/-- Torus 32×12 vertex count. -/
lemma torus_vcount (K : Type) [LinearOrderedField K] (F : MathFns K) :
    (make_torus F 32 12 1 (35/100)).verts.length = 384 := rfl

/-- C4: every generated geometry, at the parameters `main` uses
(src/ornament.c:464-469: sphere 10×16, torus 32×12 with radii 1 and 0.35),
has a positive edge count and all edge endpoint indices below the vertex
count — for every scalar field and any interpretation of the trig
functions, since the index structure does not depend on them. -/
theorem claim_C4 (K : Type) [LinearOrderedField K] (F : MathFns K) :
    geom_ok (make_cube (K := K)) = true ∧
    geom_ok (make_pyramid (K := K)) = true ∧
    geom_ok (make_octahedron (K := K)) = true ∧
    geom_ok (make_sphere F 10 16) = true ∧
    geom_ok (make_torus F 32 12 1 (35/100)) = true := by
  refine ⟨?_, ?_, ?_, ?_, ?_⟩
  · unfold geom_ok
    rw [cube_lines_indep K, cube_vcount K, Bool.and_eq_true]
    exact ⟨by decide, by decide⟩
  · unfold geom_ok
    rw [pyramid_lines_indep K, pyramid_vcount K, Bool.and_eq_true]
    exact ⟨by decide, by decide⟩
  · unfold geom_ok
    rw [octahedron_lines_indep K, octahedron_vcount K, Bool.and_eq_true]
    exact ⟨by decide, by decide⟩
  · unfold geom_ok
    rw [sphere_lines_indep K F, sphere_vcount K F, Bool.and_eq_true]
    exact ⟨by decide, by decide⟩
  · unfold geom_ok
    rw [torus_lines_indep K F, torus_vcount K F, Bool.and_eq_true]
    exact ⟨by decide, by decide⟩

/-- C10: a line with valid SHAPE/COLOR/POSITION tokens but a non-numeric
SCREEN field is accepted, with screen index 0, because the screen field
goes through `atoi` (which yields 0 on non-numeric input) and is never
validated (src/ornament.c:351-354). -/
theorem claim_C10 :
    parse_line "CUBE=[RED, CENTER, abc]".toList = some ⟨.cube, .red, .c, 0⟩ ∧
    atoi "abc".toList = 0 ∧
    load_ini (some ["CUBE=[RED, CENTER, abc]".toList]) = [⟨.cube, .red, .c, 0⟩] := by
  decide

/-- C8: an unopenable file yields exactly the default record; a file whose
lines are all blank/comment/malformed yields exactly the default record;
and removing a malformed line does not change the parse of the remaining
lines (a malformed line never aborts parsing). -/
theorem claim_C8 :
    load_ini none = [default_config] ∧
    (∀ lines : List (List Char), (∀ l ∈ lines, parse_line l = none) →
      load_ini (some lines) = [default_config]) ∧
    (∀ (pre post : List (List Char)) (bad : List Char), parse_line bad = none →
      load_ini (some (pre ++ bad :: post)) = load_ini (some (pre ++ post))) := by
  refine ⟨rfl, ?_, ?_⟩
  · intro lines h
    simp only [load_ini]
    rw [if_pos (List.filterMap_eq_nil_iff.mpr h)]
  · intro pre post bad h
    simp [load_ini, List.filterMap_append, List.filterMap_cons, h]

/-- Witness for C8: a file of one comment line, one blank line and one
malformed record line parses to exactly the default record. -/
theorem claim_C8_witness :
    load_ini (some ["# comment".toList, "".toList, "BAD=[RED]".toList]) = [default_config] :=
  claim_C8.2.1 _ (by decide)

/-- C9: frame `n` of the render loop still executes iff every top-of-frame
close check up to frame `n` saw at least one open surface; equivalently,
the loop never exits while a surface is open and exits at the first frame
whose check finds every close flag set (src/ornament.c:587-591). -/
theorem claim_C9 (flagsAt : ℕ → List Bool) (n : ℕ) :
    loop_runs flagsAt n = true ↔ ∀ m ≤ n, anyOpen (flagsAt m) = true := by
  induction n with
  | zero =>
    simp only [loop_runs]
    constructor
    · intro h m hm
      have hm0 : m = 0 := Nat.le_zero.mp hm
      simpa [hm0] using h
    · exact fun h => h 0 (le_refl 0)
  | succ n ih =>
    simp only [loop_runs, Bool.and_eq_true, ih]
    constructor
    · rintro ⟨h1, h2⟩ m hm
      rcases Nat.lt_or_ge m (n+1) with h | h
      · exact h1 m (Nat.lt_succ_iff.mp h)
      · have : m = n + 1 := le_antisymm hm h
        simpa [this] using h2
    · intro h
      exact ⟨fun m hm => h m (le_trans hm (Nat.le_succ n)), h (n+1) (le_refl _)⟩


lemma qnormSq_nonneg (q : Quat ℝ) : 0 ≤ qnormSq q := by
  unfold qnormSq
  nlinarith [mul_self_nonneg q.x, mul_self_nonneg q.y, mul_self_nonneg q.z, mul_self_nonneg q.w]

lemma qnormSq_q_ident : qnormSq (q_ident (K := ℝ)) = 1 := by
  norm_num [qnormSq, q_ident]

lemma qnormSq_q_norm (q : Quat ℝ) :
    qnormSq (q_norm ⟨Real.sqrt, Real.sin, Real.cos, Real.arccos, Real.pi⟩ q) = 1 := by
  unfold q_norm
  simp only
  set l := Real.sqrt (q.x*q.x + q.y*q.y + q.z*q.z + q.w*q.w) with hldef
  by_cases h : l < 1/100000000
  · rw [if_pos h]; exact qnormSq_q_ident
  · rw [if_neg h]
    have hS0 : 0 ≤ q.x*q.x + q.y*q.y + q.z*q.z + q.w*q.w := qnormSq_nonneg q
    have hl : 0 < l := lt_of_lt_of_le (by norm_num) (not_lt.mp h)
    have hSS : l * l = q.x*q.x + q.y*q.y + q.z*q.z + q.w*q.w := by
      rw [hldef]; exact Real.mul_self_sqrt hS0
    have key : qnormSq ⟨q.x*(1/l), q.y*(1/l), q.z*(1/l), q.w*(1/l)⟩
        = (q.x*q.x + q.y*q.y + q.z*q.z + q.w*q.w) * (1/(l*l)) := by
      unfold qnormSq; ring
    have hSpos : (0:ℝ) < q.x*q.x + q.y*q.y + q.z*q.z + q.w*q.w := by nlinarith
    rw [key, hSS, mul_one_div, div_self (ne_of_gt hSpos)]

lemma qnormSq_q_mul (a b : Quat ℝ) : qnormSq (q_mul a b) = qnormSq a * qnormSq b := by
  unfold qnormSq q_mul
  ring

lemma qnormSq_q_neg (q : Quat ℝ) : qnormSq (q_neg q) = qnormSq q := by
  unfold qnormSq q_neg
  ring

lemma qnormSq_q_from_euler (p y r : ℝ) :
    qnormSq (q_from_euler ⟨Real.sqrt, Real.sin, Real.cos, Real.arccos, Real.pi⟩ p y r) = 1 := by
  unfold q_from_euler
  have key : ∀ cx sx cy sy cz sz : ℝ,
      qnormSq ⟨sx*cy*cz - cx*sy*sz, cx*sy*cz + sx*cy*sz, cx*cy*sz - sx*sy*cz, cx*cy*cz + sx*sy*sz⟩
        = (sx*sx + cx*cx) * ((sy*sy + cy*cy) * (sz*sz + cz*cz)) := by
    intro cx sx cy sy cz sz
    unfold qnormSq
    ring
  have e1 : Real.sin (p*(1/2)) * Real.sin (p*(1/2)) + Real.cos (p*(1/2)) * Real.cos (p*(1/2)) = 1 := by
    nlinarith [Real.sin_sq_add_cos_sq (p*(1/2))]
  have e2 : Real.sin (y*(1/2)) * Real.sin (y*(1/2)) + Real.cos (y*(1/2)) * Real.cos (y*(1/2)) = 1 := by
    nlinarith [Real.sin_sq_add_cos_sq (y*(1/2))]
  have e3 : Real.sin (r*(1/2)) * Real.sin (r*(1/2)) + Real.cos (r*(1/2)) * Real.cos (r*(1/2)) = 1 := by
    nlinarith [Real.sin_sq_add_cos_sq (r*(1/2))]
  simp only
  rw [key, e1, e2, e3]
  norm_num

lemma qnormSq_q_from_axis_angle (a : Vec3 ℝ) (ha : v3_dot a a = 1) (rad : ℝ) :
    qnormSq (q_from_axis_angle ⟨Real.sqrt, Real.sin, Real.cos, Real.arccos, Real.pi⟩ a rad) = 1 := by
  unfold q_from_axis_angle v3_norm v3_len
  simp only
  rw [ha, Real.sqrt_one, if_pos (by norm_num : (1:ℝ) > 1/100000000)]
  have hd : a.x*a.x + a.y*a.y + a.z*a.z = 1 := ha
  have key : qnormSq ⟨(v3_scale a (1/1)).x * Real.sin (rad*(1/2)),
                      (v3_scale a (1/1)).y * Real.sin (rad*(1/2)),
                      (v3_scale a (1/1)).z * Real.sin (rad*(1/2)),
                      Real.cos (rad*(1/2))⟩
      = (a.x*a.x + a.y*a.y + a.z*a.z) * (Real.sin (rad*(1/2)) * Real.sin (rad*(1/2)))
        + Real.cos (rad*(1/2)) * Real.cos (rad*(1/2)) := by
    unfold qnormSq v3_scale v3
    simp only
    ring
  rw [key, hd, one_mul]
  nlinarith [Real.sin_sq_add_cos_sq (rad*(1/2))]

lemma slerp_trig_norm (A B : Quat ℝ) (t d : ℝ)
    (hA : qnormSq A = 1) (hB : qnormSq B = 1)
    (hd : A.x*B.x + A.y*B.y + A.z*B.z + A.w*B.w = d)
    (h0 : 0 ≤ d) (h1 : d ≤ 9995/10000) :
    qnormSq ⟨A.x * (Real.sin ((1 - t) * Real.arccos d) / Real.sin (Real.arccos d))
              + B.x * (Real.sin (t * Real.arccos d) / Real.sin (Real.arccos d)),
             A.y * (Real.sin ((1 - t) * Real.arccos d) / Real.sin (Real.arccos d))
              + B.y * (Real.sin (t * Real.arccos d) / Real.sin (Real.arccos d)),
             A.z * (Real.sin ((1 - t) * Real.arccos d) / Real.sin (Real.arccos d))
              + B.z * (Real.sin (t * Real.arccos d) / Real.sin (Real.arccos d)),
             A.w * (Real.sin ((1 - t) * Real.arccos d) / Real.sin (Real.arccos d))
              + B.w * (Real.sin (t * Real.arccos d) / Real.sin (Real.arccos d))⟩ = 1 := by
  have hθpos : 0 < Real.arccos d := Real.arccos_pos.mpr (by linarith)
  have hθne : Real.arccos d ≠ Real.pi := fun he => by
    have := Real.arccos_eq_pi.mp he
    linarith
  have hθlt : Real.arccos d < Real.pi := lt_of_le_of_ne (Real.arccos_le_pi d) hθne
  have hu : 0 < Real.sin (Real.arccos d) := Real.sin_pos_of_pos_of_lt_pi hθpos hθlt
  have hune : Real.sin (Real.arccos d) ≠ 0 := ne_of_gt hu
  have hcos : Real.cos (Real.arccos d) = d := Real.cos_arccos (by linarith) (by linarith)
  have hsub : Real.sin ((1 - t) * Real.arccos d)
      = Real.sin (Real.arccos d) * Real.cos (t * Real.arccos d)
        - Real.cos (Real.arccos d) * Real.sin (t * Real.arccos d) := by
    rw [show (1-t) * Real.arccos d = Real.arccos d - t * Real.arccos d from by ring, Real.sin_sub]
  have expand : qnormSq ⟨A.x * (Real.sin ((1 - t) * Real.arccos d) / Real.sin (Real.arccos d))
              + B.x * (Real.sin (t * Real.arccos d) / Real.sin (Real.arccos d)),
             A.y * (Real.sin ((1 - t) * Real.arccos d) / Real.sin (Real.arccos d))
              + B.y * (Real.sin (t * Real.arccos d) / Real.sin (Real.arccos d)),
             A.z * (Real.sin ((1 - t) * Real.arccos d) / Real.sin (Real.arccos d))
              + B.z * (Real.sin (t * Real.arccos d) / Real.sin (Real.arccos d)),
             A.w * (Real.sin ((1 - t) * Real.arccos d) / Real.sin (Real.arccos d))
              + B.w * (Real.sin (t * Real.arccos d) / Real.sin (Real.arccos d))⟩
      = (Real.sin ((1 - t) * Real.arccos d) / Real.sin (Real.arccos d))^2 * qnormSq A
        + 2 * (Real.sin ((1 - t) * Real.arccos d) / Real.sin (Real.arccos d))
            * (Real.sin (t * Real.arccos d) / Real.sin (Real.arccos d))
            * (A.x*B.x + A.y*B.y + A.z*B.z + A.w*B.w)
        + (Real.sin (t * Real.arccos d) / Real.sin (Real.arccos d))^2 * qnormSq B := by
    unfold qnormSq
    ring
  rw [expand, hA, hB, hd, hsub, hcos]
  have hid2 := Real.sin_sq_add_cos_sq (t * Real.arccos d)
  have hdu : Real.sin (Real.arccos d)^2 + d^2 = 1 := by
    have h := Real.sin_sq_add_cos_sq (Real.arccos d)
    rw [hcos] at h
    exact h
  field_simp
  linear_combination (Real.sin (Real.arccos d))^6 * hid2 - (Real.sin (t * Real.arccos d))^2 * (Real.sin (Real.arccos d))^4 * hdu

lemma qnormSq_q_slerp (a0 b0 : Quat ℝ) (t : ℝ) :
    qnormSq (q_slerp ⟨Real.sqrt, Real.sin, Real.cos, Real.arccos, Real.pi⟩ a0 b0 t) = 1 := by
  have hA : qnormSq (q_norm ⟨Real.sqrt, Real.sin, Real.cos, Real.arccos, Real.pi⟩ a0) = 1 :=
    qnormSq_q_norm a0
  have hB1 : qnormSq (q_norm ⟨Real.sqrt, Real.sin, Real.cos, Real.arccos, Real.pi⟩ b0) = 1 :=
    qnormSq_q_norm b0
  simp only [q_slerp]
  set A := q_norm ⟨Real.sqrt, Real.sin, Real.cos, Real.arccos, Real.pi⟩ a0 with hAdef
  set B1 := q_norm ⟨Real.sqrt, Real.sin, Real.cos, Real.arccos, Real.pi⟩ b0 with hB1def
  by_cases hneg : A.x*B1.x + A.y*B1.y + A.z*B1.z + A.w*B1.w < 0
  · simp only [if_pos hneg]
    by_cases hbig : -(A.x*B1.x + A.y*B1.y + A.z*B1.z + A.w*B1.w) > 9995/10000
    · simp only [if_pos hbig]
      exact qnormSq_q_norm _
    · simp only [if_neg hbig]
      refine slerp_trig_norm A (q_neg B1) t
        (-(A.x*B1.x + A.y*B1.y + A.z*B1.z + A.w*B1.w)) hA ?_ ?_ ?_ ?_
      · rw [qnormSq_q_neg]; exact hB1
      · unfold q_neg; ring
      · linarith
      · linarith [not_lt.mp hbig]
  · simp only [if_neg hneg]
    by_cases hbig : A.x*B1.x + A.y*B1.y + A.z*B1.z + A.w*B1.w > 9995/10000
    · simp only [if_pos hbig]
      exact qnormSq_q_norm _
    · simp only [if_neg hbig]
      refine slerp_trig_norm A B1 t
        (A.x*B1.x + A.y*B1.y + A.z*B1.z + A.w*B1.w) hA hB1 rfl ?_ ?_
      · linarith [not_lt.mp hneg]
      · linarith [not_lt.mp hbig]

lemma qnormSq_spin_dq (dYaw dPitch : ℝ) :
    qnormSq (q_mul (q_from_axis_angle ⟨Real.sqrt, Real.sin, Real.cos, Real.arccos, Real.pi⟩ (v3 0 1 0) dYaw)
      (q_from_axis_angle ⟨Real.sqrt, Real.sin, Real.cos, Real.arccos, Real.pi⟩ (v3 1 0 0) dPitch)) = 1 := by
  rw [qnormSq_q_mul,
      qnormSq_q_from_axis_angle _ (by norm_num [v3_dot, v3]) _,
      qnormSq_q_from_axis_angle _ (by norm_num [v3_dot, v3]) _]
  norm_num

lemma update_shape_qnormSq (rng : ℕ → ℝ) (k : ℕ) (s : ShapeRuntime ℝ) (dt : ℝ)
    (ho : qnormSq s.orient = 1) (ht : qnormSq s.target = 1) :
    qnormSq (update_shape ⟨Real.sqrt, Real.sin, Real.cos, Real.arccos, Real.pi⟩ rng k s dt).1.orient = 1 ∧
    qnormSq (update_shape ⟨Real.sqrt, Real.sin, Real.cos, Real.arccos, Real.pi⟩ rng k s dt).1.target = 1 := by
  simp only [update_shape]
  by_cases h1 : s.reorientTimer - dt ≤ 0 ∨ 0 < s.reorientT
  · by_cases h2 : s.reorientT = 0
    · by_cases h3 : (1:ℝ) ≤ s.reorientT + dt / s.reorientDur
      · simp only [if_pos h1, if_pos h2, if_pos h3]
        constructor
        · rw [qnormSq_q_mul, qnormSq_spin_dq, one_mul]
          exact qnormSq_q_from_euler _ _ _
        · exact qnormSq_q_from_euler _ _ _
      · simp only [if_pos h1, if_pos h2, if_neg h3]
        constructor
        · rw [qnormSq_q_mul, qnormSq_spin_dq, one_mul]
          exact qnormSq_q_slerp _ _ _
        · exact qnormSq_q_from_euler _ _ _
    · by_cases h3 : (1:ℝ) ≤ s.reorientT + dt / s.reorientDur
      · simp only [if_pos h1, if_neg h2, if_pos h3]
        constructor
        · rw [qnormSq_q_mul, qnormSq_spin_dq, one_mul]
          exact ht
        · exact ht
      · simp only [if_pos h1, if_neg h2, if_neg h3]
        constructor
        · rw [qnormSq_q_mul, qnormSq_spin_dq, one_mul]
          exact qnormSq_q_slerp _ _ _
        · exact ht
  · simp only [if_neg h1]
    constructor
    · rw [qnormSq_q_mul, qnormSq_spin_dq, one_mul]
      exact ho
    · exact ht

lemma run_updates_qnormSq (rng : ℕ → ℝ) (dts : List ℝ) :
    ∀ (k : ℕ) (s : ShapeRuntime ℝ), qnormSq s.orient = 1 → qnormSq s.target = 1 →
      qnormSq (run_updates ⟨Real.sqrt, Real.sin, Real.cos, Real.arccos, Real.pi⟩ rng k s dts).1.orient = 1 ∧
      qnormSq (run_updates ⟨Real.sqrt, Real.sin, Real.cos, Real.arccos, Real.pi⟩ rng k s dts).1.target = 1 := by
  induction dts with
  | nil => exact fun k s ho ht => ⟨ho, ht⟩
  | cons dt rest ih =>
    intro k s ho ht
    simp only [run_updates]
    obtain ⟨h1, h2⟩ := update_shape_qnormSq rng k s dt ho ht
    exact ih _ _ h1 h2

/-- C5: starting from unit `orientation` and `target` quaternions, after any
finite sequence of `update_shape` ticks (any non-negative `dt`s, any
random draws), the Euclidean norms of `orientation` and `target` stay
within `1e-3` of 1 — in the real-valued model they stay exactly 1. -/
theorem claim_C5 (rng : ℕ → ℝ) (k : ℕ) (s : ShapeRuntime ℝ) (dts : List ℝ)
    (ho : qnormE ⟨Real.sqrt, Real.sin, Real.cos, Real.arccos, Real.pi⟩ s.orient = 1)
    (ht : qnormE ⟨Real.sqrt, Real.sin, Real.cos, Real.arccos, Real.pi⟩ s.target = 1)
    (hdts : ∀ dt ∈ dts, 0 ≤ dt) :
    |qnormE ⟨Real.sqrt, Real.sin, Real.cos, Real.arccos, Real.pi⟩
        (run_updates ⟨Real.sqrt, Real.sin, Real.cos, Real.arccos, Real.pi⟩ rng k s dts).1.orient - 1| ≤ 1/1000 ∧
    |qnormE ⟨Real.sqrt, Real.sin, Real.cos, Real.arccos, Real.pi⟩
        (run_updates ⟨Real.sqrt, Real.sin, Real.cos, Real.arccos, Real.pi⟩ rng k s dts).1.target - 1| ≤ 1/1000 := by
  have ho2 : qnormSq s.orient = 1 := Real.sqrt_eq_one.mp ho
  have ht2 : qnormSq s.target = 1 := Real.sqrt_eq_one.mp ht
  obtain ⟨h1, h2⟩ := run_updates_qnormSq rng dts k s ho2 ht2
  constructor
  · have e1 : qnormE ⟨Real.sqrt, Real.sin, Real.cos, Real.arccos, Real.pi⟩
        (run_updates ⟨Real.sqrt, Real.sin, Real.cos, Real.arccos, Real.pi⟩ rng k s dts).1.orient = 1 := by
      show Real.sqrt (qnormSq (run_updates ⟨Real.sqrt, Real.sin, Real.cos, Real.arccos, Real.pi⟩ rng k s dts).1.orient) = 1
      rw [h1, Real.sqrt_one]
    rw [e1]
    norm_num
  · have e2 : qnormE ⟨Real.sqrt, Real.sin, Real.cos, Real.arccos, Real.pi⟩
        (run_updates ⟨Real.sqrt, Real.sin, Real.cos, Real.arccos, Real.pi⟩ rng k s dts).1.target = 1 := by
      show Real.sqrt (qnormSq (run_updates ⟨Real.sqrt, Real.sin, Real.cos, Real.arccos, Real.pi⟩ rng k s dts).1.target) = 1
      rw [h2, Real.sqrt_one]
    rw [e2]
    norm_num

lemma q_norm_of_unit (q : Quat ℝ) (h : qnormSq q = 1) :
    q_norm ⟨Real.sqrt, Real.sin, Real.cos, Real.arccos, Real.pi⟩ q = q := by
  unfold q_norm
  simp only
  have hsum : q.x*q.x + q.y*q.y + q.z*q.z + q.w*q.w = 1 := h
  rw [hsum, Real.sqrt_one, if_neg (by norm_num : ¬((1:ℝ) < 1/100000000))]
  have e : ∀ a : ℝ, a * (1/1) = a := fun a => by norm_num
  simp only [e]

/-- C7: for every unit quaternion `q` and every `t ∈ [0,1]`,
`q_slerp q q t = q` — exactly, in the real-valued model (the nearly-aligned
lerp branch fires with `dot = 1` and returns the renormalized input). -/
theorem claim_C7 (q : Quat ℝ) (t : ℝ)
    (hq : qnormE ⟨Real.sqrt, Real.sin, Real.cos, Real.arccos, Real.pi⟩ q = 1)
    (h0 : 0 ≤ t) (h1 : t ≤ 1) :
    q_slerp ⟨Real.sqrt, Real.sin, Real.cos, Real.arccos, Real.pi⟩ q q t = q := by
  have hsq : qnormSq q = 1 := Real.sqrt_eq_one.mp hq
  have hn := q_norm_of_unit q hsq
  simp only [q_slerp, hn]
  have hd : q.x*q.x + q.y*q.y + q.z*q.z + q.w*q.w = 1 := hsq
  rw [hd]
  simp only [if_neg (by norm_num : ¬((1:ℝ) < 0)), if_pos (by norm_num : (1:ℝ) > 9995/10000)]
  have e : ∀ a : ℝ, a + t*(a - a) = a := fun a => by ring
  simp only [e]
  exact hn

/-- Witness for C5: the identity quaternion is unit, `[1]` is a list of
non-negative tick sizes, and after the run both norms are within `1e-3`
of 1. -/
theorem claim_C5_witness :
    (qnormE ⟨Real.sqrt, Real.sin, Real.cos, Real.arccos, Real.pi⟩ (q_ident (K := ℝ)) = 1 ∧
      (∀ dt ∈ [(1:ℝ)], 0 ≤ dt)) ∧
    (|qnormE ⟨Real.sqrt, Real.sin, Real.cos, Real.arccos, Real.pi⟩
        (run_updates ⟨Real.sqrt, Real.sin, Real.cos, Real.arccos, Real.pi⟩ (fun _ => 0) 0
          ⟨.cube, .green, 0, 0, q_ident, q_ident, 0, 0, 0, 1, 0, v3 0 0 0, ⟨[], []⟩⟩ [1]).1.orient - 1| ≤ 1/1000 ∧
     |qnormE ⟨Real.sqrt, Real.sin, Real.cos, Real.arccos, Real.pi⟩
        (run_updates ⟨Real.sqrt, Real.sin, Real.cos, Real.arccos, Real.pi⟩ (fun _ => 0) 0
          ⟨.cube, .green, 0, 0, q_ident, q_ident, 0, 0, 0, 1, 0, v3 0 0 0, ⟨[], []⟩⟩ [1]).1.target - 1| ≤ 1/1000) := by
  have hq : qnormE ⟨Real.sqrt, Real.sin, Real.cos, Real.arccos, Real.pi⟩ (q_ident (K := ℝ)) = 1 := by
    show Real.sqrt (qnormSq (q_ident (K := ℝ))) = 1
    rw [qnormSq_q_ident, Real.sqrt_one]
  have hdts : ∀ dt ∈ [(1:ℝ)], 0 ≤ dt := by simp
  exact ⟨⟨hq, hdts⟩,
    claim_C5 (fun _ => 0) 0 ⟨.cube, .green, 0, 0, q_ident, q_ident, 0, 0, 0, 1, 0, v3 0 0 0, ⟨[], []⟩⟩
      [1] hq hq hdts⟩

/-- Witness for C7: the identity quaternion is unit, `1/2 ∈ [0,1]`, and slerp
from it to itself at `1/2` returns it. -/
theorem claim_C7_witness :
    (qnormE ⟨Real.sqrt, Real.sin, Real.cos, Real.arccos, Real.pi⟩ (q_ident (K := ℝ)) = 1 ∧
      (0:ℝ) ≤ 1/2 ∧ (1:ℝ)/2 ≤ 1) ∧
    q_slerp ⟨Real.sqrt, Real.sin, Real.cos, Real.arccos, Real.pi⟩ (q_ident (K := ℝ)) q_ident (1/2) = q_ident := by
  have hq : qnormE ⟨Real.sqrt, Real.sin, Real.cos, Real.arccos, Real.pi⟩ (q_ident (K := ℝ)) = 1 := by
    show Real.sqrt (qnormSq (q_ident (K := ℝ))) = 1
    rw [qnormSq_q_ident, Real.sqrt_one]
  exact ⟨⟨hq, by norm_num, by norm_num⟩, claim_C7 q_ident (1/2) hq (by norm_num) (by norm_num)⟩

/-- C1 (amended): on the tick in which the advanced `reorientProgress`
reaches 1, `update_shape` snaps the orientation to the target (the
unconditional spin delta is then pre-multiplied, as on every tick), resets
`reorientT` to 0, and redraws `reorientTimer` as a fresh uniform draw from
[4,8]; `reorientDur` is NOT redrawn — it is left unchanged
(src/ornament.c:520 never assigns `reorientDur`). -/
theorem claim_C1_amended (K : Type) [LinearOrderedField K] [FloorRing K] (F : MathFns K)
    (rng : ℕ → K) (k : ℕ) (s : ShapeRuntime K) (dt : K)
    (hcond : reorientCond s dt) (hsnap : snapCond s dt)
    (hrng : ∀ j, 0 ≤ rng j ∧ rng j ≤ 1) :
    (update_shape F rng k s dt).1.reorientT = 0 ∧
    (update_shape F rng k s dt).1.reorientDur = s.reorientDur ∧
    (update_shape F rng k s dt).1.reorientTimer
      = frand_range rng (if s.reorientT = 0 then k + 3 else k) 4 8 ∧
    4 ≤ (update_shape F rng k s dt).1.reorientTimer ∧
    (update_shape F rng k s dt).1.reorientTimer ≤ 8 ∧
    (update_shape F rng k s dt).1.target
      = (if s.reorientT = 0 then
          q_from_euler F (frand_range rng k (-(3/2)) (3/2))
            (frand_range rng (k+1) (-(3/2)) (3/2)) (frand_range rng (k+2) (-(3/2)) (3/2))
         else s.target) ∧
    (update_shape F rng k s dt).1.orient
      = q_mul (q_mul (q_from_axis_angle F (v3 0 1 0) (s.spinY * 1 * dt * F.pi / 180))
                     (q_from_axis_angle F (v3 1 0 0) (s.spinX * 1 * dt * F.pi / 180)))
          ((update_shape F rng k s dt).1.target) ∧
    (update_shape F rng k s dt).2 = (if s.reorientT = 0 then k + 3 else k) + 1 := by
  have h1 : s.reorientTimer - dt ≤ 0 ∨ 0 < s.reorientT := hcond
  have h3 : (1:K) ≤ s.reorientT + dt / s.reorientDur := hsnap
  have hb : 4 ≤ frand_range rng (if s.reorientT = 0 then k + 3 else k) 4 8 ∧
      frand_range rng (if s.reorientT = 0 then k + 3 else k) 4 8 ≤ 8 := by
    obtain ⟨hl, hr⟩ := hrng (if s.reorientT = 0 then k + 3 else k)
    unfold frand_range
    constructor <;> nlinarith
  by_cases h2 : s.reorientT = 0
  · rw [if_pos h2] at hb
    simp only [update_shape, if_pos h1, if_pos h2, if_pos h3]
    refine ⟨?_, ?_, ?_, hb.1, hb.2, ?_, ?_, ?_⟩ <;> (first | exact True.intro | rfl)
  · rw [if_neg h2] at hb
    simp only [update_shape, if_pos h1, if_neg h2, if_pos h3]
    refine ⟨?_, ?_, ?_, hb.1, hb.2, ?_, ?_, ?_⟩ <;> (first | exact True.intro | rfl)

/-- `sampleState` with `dt = 1/2` enters the reorientation branch. -/
lemma sample_reorientCond : reorientCond sampleState (1/2 : ℚ) := by
  norm_num [reorientCond, sampleState]

/-- `sampleState` with `dt = 1/2` completes the reorientation
(`3/4 + (1/2)/2 = 1`). -/
lemma sample_snapCond : snapCond sampleState (1/2 : ℚ) := by
  norm_num [snapCond, sampleState]

/-- Evaluating `update_shape` on `sampleState`: the snap tick leaves
`reorientDur` at its old value 2. -/
lemma sample_update_dur :
    (update_shape qFns (fun _ => 0) 0 sampleState (1/2)).1.reorientDur = 2 := by
  norm_num [update_shape, sampleState]

/-- C1 counterexample: in the state `sampleState` (mid-reorientation with
`reorientDur = 2`) with `dt = 1/2` and the all-zero random stream, the
snap tick leaves `reorientDur = 2`, while a fresh uniform draw from
[1.5,2.5] would be `1.5` — so the claim's "redraw `reorientDuration`"
conjunct is false. -/
theorem claim_C1_counterexample : ¬ claimC1_prop := by
  intro h
  obtain ⟨hT, hTimer, j, hj⟩ :=
    h sampleState (fun _ => 0) 0 (1/2) (fun j => by norm_num) sample_reorientCond sample_snapCond
  rw [sample_update_dur] at hj
  norm_num [frand_range] at hj

/-- Witness for C1 (amended): the hypotheses hold at `sampleState` with
`dt = 1/2`, and the amended theorem applies there. -/
theorem claim_C1_witness :
    (reorientCond sampleState (1/2) ∧ snapCond sampleState (1/2) ∧
      (∀ j : ℕ, 0 ≤ (fun _ => (0:ℚ)) j ∧ (fun _ => (0:ℚ)) j ≤ 1)) ∧
    (update_shape qFns (fun _ => 0) 0 sampleState (1/2)).1.reorientDur = sampleState.reorientDur := by
  refine ⟨⟨sample_reorientCond, sample_snapCond, fun j => by norm_num⟩, ?_⟩
  exact (claim_C1_amended ℚ qFns (fun _ => 0) 0 sampleState (1/2) sample_reorientCond
    sample_snapCond (fun j => by norm_num)).2.1

/-- C2 (amended): per `update_shape` call, `hue` is written exactly once;
`hueSpeed`, `spinY`, `spinX`, `worldPos` and `reorientDur` are written
zero times (and their values are unchanged, as are `geom`, `shape`,
`color`); `orient` is written twice on reorienting ticks and once
otherwise; `target` is written only when a reorientation starts;
`reorientT` once or twice only during reorientation; and `reorientTimer`
twice on snap ticks, once otherwise.  The claim's "every field exactly
once" is therefore false. -/
theorem claim_C2_amended (K : Type) [LinearOrderedField K] [FloorRing K] (F : MathFns K)
    (rng : ℕ → K) (k : ℕ) (s : ShapeRuntime K) (dt : K) :
    update_writes s dt .hue = 1 ∧
    update_writes s dt .hueSpeed = 0 ∧
    update_writes s dt .spinY = 0 ∧
    update_writes s dt .spinX = 0 ∧
    update_writes s dt .worldPos = 0 ∧
    update_writes s dt .reorientDur = 0 ∧
    update_writes s dt .orient = (if reorientCond s dt then 2 else 1) ∧
    update_writes s dt .target = (if reorientCond s dt ∧ s.reorientT = 0 then 1 else 0) ∧
    update_writes s dt .reorientT
      = (if reorientCond s dt then (if snapCond s dt then 2 else 1) else 0) ∧
    update_writes s dt .reorientTimer
      = (if reorientCond s dt ∧ snapCond s dt then 2 else 1) ∧
    (update_shape F rng k s dt).1.hueSpeed = s.hueSpeed ∧
    (update_shape F rng k s dt).1.spinY = s.spinY ∧
    (update_shape F rng k s dt).1.spinX = s.spinX ∧
    (update_shape F rng k s dt).1.worldPos = s.worldPos ∧
    (update_shape F rng k s dt).1.reorientDur = s.reorientDur ∧
    (update_shape F rng k s dt).1.geom = s.geom ∧
    (update_shape F rng k s dt).1.shape = s.shape ∧
    (update_shape F rng k s dt).1.color = s.color := by
  by_cases ht : s.reorientT = 0
  · by_cases hA : s.reorientTimer ≤ dt
    · by_cases hs : (1:K) ≤ dt / s.reorientDur
      · simp [update_writes, update_shape, reorientCond, snapCond, ht, hA, hs]
      · simp [update_writes, update_shape, reorientCond, snapCond, ht, hA, hs]
    · simp [update_writes, update_shape, reorientCond, snapCond, ht, hA]
  · by_cases hc : s.reorientTimer ≤ dt ∨ 0 < s.reorientT
    · by_cases hs : (1:K) ≤ s.reorientT + dt / s.reorientDur
      · simp [update_writes, update_shape, reorientCond, snapCond, ht, hc, hs]
      · simp [update_writes, update_shape, reorientCond, snapCond, ht, hc, hs]
    · simp [update_writes, update_shape, reorientCond, snapCond, ht, hc]

/-- C2 counterexample: at `sampleState` with `dt = 0`, the field `hueSpeed`
is written zero times, not once. -/
theorem claim_C2_counterexample : ¬ claimC2_prop := by
  intro h
  have h2 := h sampleState 0 .hueSpeed
  norm_num [update_writes, sampleState] at h2
  revert h2
  decide

/-- C3 counterexample: a RANDOM shape with `hue = 0`, `hueSpeed = 1/2` drawn
at wall-clock time `t = 1` gets `hsv2rgb(1/2,1,1)` = cyan, not
`hsv2rgb(hue,1,1)` = red: the draw color depends on `t`, not on the
stored hue alone (src/ornament.c:505 adds `t*hueSpeed`). -/
theorem claim_C3_counterexample : ¬ claimC3_prop := by
  intro h
  have h2 := h ⟨.cube, .random, 0, 1/2, q_ident, q_ident, 0, 0, 0, 0, 0, v3 0 0 0, ⟨[], []⟩⟩ 1 rfl
  norm_num [color_for, hsv2rgb, fmodf1, v3, Int.tmod] at h2

/-- C3 (amended): for a RANDOM shape with non-negative stored hue and
non-negative elapsed contribution, the draw color is the HSV-to-RGB
conversion (saturation 1, value 1) of the fractional part of
`hue + t*hueSpeed` — a function of the stored hue *and* the wall-clock
time, always in [0,1). -/
theorem claim_C3_amended (K : Type) [LinearOrderedField K] [FloorRing K]
    (s : ShapeRuntime K) (t : K)
    (hc : s.color = .random) (h0 : 0 ≤ s.hue) (h1 : 0 ≤ t * s.hueSpeed) :
    color_for s t = hsv2rgb (Int.fract (s.hue + t * s.hueSpeed)) 1 1 ∧
    0 ≤ Int.fract (s.hue + t * s.hueSpeed) ∧ Int.fract (s.hue + t * s.hueSpeed) < 1 := by
  have hx : 0 ≤ s.hue + t * s.hueSpeed := add_nonneg h0 h1
  refine ⟨?_, Int.fract_nonneg _, Int.fract_lt_one _⟩
  unfold color_for
  rw [if_pos hc]
  congr 1
  unfold fmodf1
  rw [if_pos hx, Int.fract]

/-- Witness for C3 (amended) at a concrete RANDOM shape over `ℚ`. -/
theorem claim_C3_witness :
    ((⟨.cube, .random, 1/4, 1/3, q_ident, q_ident, 0, 0, 0, 0, 0, v3 0 0 0,
        ⟨[], []⟩⟩ : ShapeRuntime ℚ).color = .random ∧
      (0:ℚ) ≤ 1/4 ∧ (0:ℚ) ≤ 2 * (1/3)) ∧
    color_for (⟨.cube, .random, 1/4, 1/3, q_ident, q_ident, 0, 0, 0, 0, 0, v3 0 0 0,
        ⟨[], []⟩⟩ : ShapeRuntime ℚ) 2
      = hsv2rgb (Int.fract ((1:ℚ)/4 + 2 * (1/3))) 1 1 := by
  refine ⟨⟨rfl, by norm_num, by norm_num⟩, ?_⟩
  exact (claim_C3_amended ℚ _ 2 rfl (by norm_num) (by norm_num)).1

lemma place_loop_length (K : Type) [LinearOrderedField K] (monCount : ℕ) :
    ∀ (cfgs : List ShapeConfig) (cnt : ℕ → Anchor → ℕ),
      (place_loop (K := K) monCount cfgs cnt).length = cfgs.length := by
  intro cfgs
  induction cfgs with
  | nil => intro cnt; rfl
  | cons c0 rest ih => intro cnt; simp [place_loop, ih]

/-- The position list produced by the placement loop, characterized pointwise:
the `i`-th shape gets `place_shape` of its anchor, applied to the counter
value plus the number of earlier shapes hitting the same
(clamped monitor, anchor) cell. -/
lemma place_loop_getElem (K : Type) [LinearOrderedField K] (monCount : ℕ) :
    ∀ (cfgs : List ShapeConfig) (cnt : ℕ → Anchor → ℕ) (i : ℕ),
      (place_loop (K := K) monCount cfgs cnt)[i]? =
        (cfgs[i]?).map fun c =>
          place_shape c.pos (cnt (clamp_mon c.screen monCount) c.pos
            + (cfgs.take i).countP (same_cell monCount c)) := by
  intro cfgs
  induction cfgs with
  | nil => intro cnt i; simp [place_loop]
  | cons c0 rest ih =>
    intro cnt i
    cases i with
    | zero => simp [place_loop]
    | succ n =>
      simp only [place_loop, List.getElem?_cons_succ, List.take_succ_cons, List.countP_cons]
      rw [ih]
      cases hr : rest[n]? with
      | none => simp
      | some c =>
        simp only [Option.map_some']
        congr 1
        by_cases hcell : clamp_mon c0.screen monCount = clamp_mon c.screen monCount ∧ c0.pos = c.pos
        · have h1 : clamp_mon c.screen monCount = clamp_mon c0.screen monCount ∧ c.pos = c0.pos :=
            ⟨hcell.1.symm, hcell.2.symm⟩
          simp [same_cell, hcell, if_pos h1]
          ring_nf
        · have h1 : ¬(clamp_mon c.screen monCount = clamp_mon c0.screen monCount ∧ c.pos = c0.pos) :=
            fun hx => hcell ⟨hx.1.symm, hx.2.symm⟩
          simp [same_cell, hcell, if_neg h1]

/-- C6 (amended): the Nth shape sharing a (clamped monitor, anchor) cell gets
the margin-adjusted anchor plus an offset of `0.05*N` per axis whose sign
is `-` when the anchor coordinate is `≥ 0` and `+` otherwise.  This
coincides with the spec's margin-pull convention at the four corner
anchors (and in particular at BOTTOM-RIGHT, the claim's example), but not
at anchors with a zero coordinate. -/
theorem claim_C6_amended (K : Type) [LinearOrderedField K]
    (monCount : ℕ) (cfgs : List ShapeConfig) (i : ℕ) :
    (place_positions (K := K) monCount cfgs)[i]? =
      (cfgs[i]?).map (fun c =>
        place_shape c.pos ((cfgs.take i).countP (same_cell monCount c))) ∧
    (∀ qn : ℕ,
      place_shape (K := K) .tl qn = place_shape_spec .tl qn ∧
      place_shape (K := K) .tr qn = place_shape_spec .tr qn ∧
      place_shape (K := K) .bl qn = place_shape_spec .bl qn ∧
      place_shape (K := K) .br qn = place_shape_spec .br qn) ∧
    place_shape (K := K) .br 1 = v3 (1 - 12/100 - 5/100) (-1 + 12/100 + 5/100) 0 := by
  refine ⟨?_, ?_, ?_⟩
  · rw [place_positions, place_loop_getElem K monCount cfgs _ i]
    simp
  · intro qn
    refine ⟨?_, ?_, ?_, ?_⟩ <;>
      norm_num [place_shape, place_shape_spec, anchor_to_ndc, anchor_margin, v3]
  · norm_num [place_shape, anchor_to_ndc, anchor_margin, v3]

/-- C6 counterexample: two shapes on anchor CENTER of monitor 0.  The claim
(margin-pull sign convention: zero axes unaffected) predicts the second
shape stays at (0,0); the code offsets it to (-0.05,-0.05) because
`anc.x >= 0` and `anc.y >= 0` both subtract. -/
theorem claim_C6_counterexample : ¬ claimC6_prop := by
  intro h
  have h2 := h 1 [⟨.cube, .green, .c, 0⟩, ⟨.cube, .green, .c, 0⟩] 1
  norm_num [place_positions, place_loop, place_shape, place_shape_spec, anchor_to_ndc,
    anchor_margin, v3, clamp_mon, same_cell] at h2

end Ornament
